import Mathlib

/-!
Verification development for the quibo-mcp authentication and API-access
layer.  The definitions below are a shallow embedding of the TypeScript
source (`src/lib/auth.ts`, `src/lib/config.ts`, `src/lib/api.ts`,
`src/lib/types.ts`); each definition's doc comment names the source
function it embeds.  Times are unix seconds as integers; JavaScript's
`number` is embedded as `Option Int` where `none` stands for `NaN`
(the only non-integer value these code paths can produce, via
`parseInt` on a non-numeric string).
-/

namespace Quibo

/-- JavaScript number restricted to the values reachable in this code:
an integer, or `NaN` (`none`), which `parseInt` produces on
non-numeric input. -/
abbrev JSNum := Option Int

/-- JavaScript `+` on such numbers: `NaN` is absorbing. -/
def addJS : JSNum → JSNum → JSNum
  | some a, some b => some (a + b)
  | _, _ => none

/-- JavaScript `x >= y` where `y` may be `NaN`: any comparison with
`NaN` is false. -/
def geJS (x : Int) (y : JSNum) : Bool :=
  match y with
  | some t => decide (t ≤ x)
  | none => false

/-- JavaScript truthiness of a `string | undefined` value:
`undefined` and the empty string are falsy. -/
def truthy : Option String → Bool
  | none => false
  | some s => !(s == "")

/-- JavaScript `s || dflt` for `s : string | undefined`: yields `dflt`
when `s` is `undefined` or empty. -/
def jsOr (s : Option String) (dflt : String) : String :=
  match s with
  | some v => if v = "" then dflt else v
  | none => dflt

/-- Whitespace skipped by JavaScript `parseInt`. -/
def isJSWhitespace (c : Char) : Bool :=
  c = ' ' || c = '\t' || c = '\n' || c = '\r'

/-- Decimal value of a digit string. -/
def digitsToNat (l : List Char) : Nat :=
  l.foldl (fun acc c => acc * 10 + (c.toNat - 48)) 0

/-- Longest leading run of decimal digits, or `none` when there is no
digit (the case where `parseInt` returns `NaN`). -/
def parseDigits (l : List Char) : Option Nat :=
  let ds := l.takeWhile Char.isDigit
  if ds.isEmpty then none else some (digitsToNat ds)

/-- Sign handling of `parseInt` after whitespace stripping. -/
def parseIntChars : List Char → JSNum
  | '-' :: rest => (parseDigits rest).map (fun n => -(n : Int))
  | '+' :: rest => (parseDigits rest).map (fun n => (n : Int))
  | l => (parseDigits l).map (fun n => (n : Int))

/-- JavaScript `parseInt(s, 10)`: skip leading whitespace, optional
sign, then the longest digit run; `NaN` (`none`) when no digit
follows. -/
def parseIntJS (s : String) : JSNum :=
  parseIntChars (s.data.dropWhile isJSWhitespace)

/-! ## Data model (`src/lib/types.ts`) -/

/-- `StoredAuth.user` from `types.ts`. -/
structure AuthUser where
  email : String
  id : String
deriving DecidableEq, Repr

/-- `StoredAuth` from `types.ts`: the persisted Session.  `expiresAt`
is a JavaScript number (unix seconds), hence `JSNum`. -/
structure StoredAuth where
  accessToken : String
  refreshToken : String
  expiresAt : JSNum
  user : AuthUser
deriving DecidableEq, Repr

/-- `AuthStatus` from `types.ts`.  The optional fields are `Option`s
because the code omits them when unauthenticated. -/
structure AuthStatus where
  authenticated : Bool
  email : Option String
  expiresAt : Option JSNum
  isExpired : Bool
deriving DecidableEq, Repr

/-- `OAuthCallbackParams` from `types.ts`: the query parameters of the
OAuth redirect, each possibly absent. -/
structure OAuthCallbackParams where
  access_token : Option String
  refresh_token : Option String
  expires_in : Option String
  token_type : Option String
  error : Option String
  error_description : Option String
deriving DecidableEq, Repr

/-- The identity returned by the provider's session exchange
(`sessionData.user` of `supabase.auth.setSession`): an email that may
be absent, and an id. -/
structure UserIdentity where
  email : Option String
  id : String
deriving DecidableEq, Repr

/-! ## Token access (`src/lib/auth.ts`: `checkAuth`, `getAccessToken`) -/

/-- The two token-access failures of `getAccessToken`
(`NotAuthenticated` / `TokenExpired` of the spec's taxonomy). -/
inductive TokenError where
  | notAuthenticated
  | tokenExpired
deriving DecidableEq, Repr

/-- `checkAuth()` from `auth.ts`, as a function of the stored auth
record and the current unix time `now = Math.floor(Date.now() / 1000)`:
absent record gives `{authenticated: false, isExpired: true}`;
otherwise `isExpired = now >= expiresAt` and
`authenticated = !isExpired`. -/
def checkAuth (auth : Option StoredAuth) (now : Int) : AuthStatus :=
  match auth with
  | none =>
      { authenticated := false, email := none, expiresAt := none, isExpired := true }
  | some a =>
      let isExpired := geJS now a.expiresAt
      { authenticated := !isExpired
        email := some a.user.email
        expiresAt := some a.expiresAt
        isExpired := isExpired }

/-- `getAccessToken()` from `auth.ts` (the spec's
`getAccessTokenOrFail`): throws `NotAuthenticated` when no record is
stored, `TokenExpired` when `now >= expiresAt`, else returns the
stored access token. -/
def getAccessToken (auth : Option StoredAuth) (now : Int) : Except TokenError String :=
  match auth with
  | none => .error .notAuthenticated
  | some a =>
      if geJS now a.expiresAt then .error .tokenExpired
      else .ok a.accessToken

/-! ## Port allocation (`src/lib/auth.ts`: `findAvailablePort`) -/

/-- Outcome of one attempt to bind a listener on a port: success
(carrying the port reported by `server.address()`), `EADDRINUSE`, or
any other bind error (carrying its message). -/
inductive BindOutcome where
  | ok (boundPort : Nat)
  | inUse
  | fatal (e : String)
deriving DecidableEq, Repr

/-- `findAvailablePort(startPort)` from `auth.ts`: bind on `startPort`;
on success release and return the bound port; on `EADDRINUSE` recurse
with `startPort + 1`; on any other error reject.  The TypeScript
recursion is unbounded, so the embedding is fuel-indexed, `none`
meaning the recursion did not finish within the fuel. -/
def findAvailablePort (probe : Nat → BindOutcome) : Nat → Nat → Option (Except String Nat)
  | 0, _ => none
  | fuel + 1, startPort =>
      match probe startPort with
      | .ok boundPort => some (.ok boundPort)
      | .inUse => findAvailablePort probe fuel (startPort + 1)
      | .fatal e => some (.error e)

/-! ## Callback listener (`src/lib/auth.ts`: `startCallbackServer`)

The listener's behaviour is determined by the sequence of events it
observes: incoming HTTP requests (each with a path and parsed query
parameters) and the firing of the five-minute timer.  The promise it
returns settles at most once — `resolve`/`reject` after the first
settlement are no-ops — so the embedding folds over the event list and
keeps the first settling event. -/

/-- One event observed by the callback server: an HTTP request with
its path and parsed query, or the expiry of the timeout timer. -/
inductive ListenerEvent where
  | request (path : String) (params : OAuthCallbackParams)
  | timeout
deriving DecidableEq, Repr

/-- Settlement of the promise returned by `startCallbackServer`:
resolution with the callback parameters, or rejection by the timeout
(`CallbackTimeout`, the thrown `OAuth callback timeout after 5
minutes` error). -/
inductive ListenerResult where
  | resolved (params : OAuthCallbackParams)
  | timedOut
deriving DecidableEq, Repr

/-- Whether an event is a request to the one meaningful path
`/callback`. -/
def isCallbackRequest : ListenerEvent → Bool
  | .request path _ => path = "/callback"
  | .timeout => false

/-- `startCallbackServer` over an event sequence: a request whose
path is `/callback` settles the promise with its parameters (and
clears the timer); any other request is answered 404 and changes
nothing; the timer firing settles the promise with rejection.  `none`
means no event settled the promise. -/
def runListener : List ListenerEvent → Option ListenerResult
  | [] => none
  | .timeout :: _ => some .timedOut
  | .request path params :: rest =>
      if path = "/callback" then some (.resolved params)
      else runListener rest

/-! ## Login orchestration (`src/lib/auth.ts`: `authenticate`) -/

/-- The login-flow failures thrown by `authenticate` (spec taxonomy
names; each corresponds to one `throw new Error(...)` in the source).
`callbackTimeout` is the listener's timeout rejection propagating out
of `authenticate`. -/
inductive AuthError where
  | authUrlMissing
  | callbackTimeout
  | oauthProviderError (desc : String)
  | missingTokens
  | sessionExchangeFailed
deriving DecidableEq, Repr

/-- The tail of `authenticate` after the callback promise resolved
with `params` (source: OAuth-error check, token extraction with
`parseInt(params.expires_in || '3600', 10)`, token-presence check,
`setSession` exchange, construction of the `StoredAuth` record with
`expiresAt = Math.floor(Date.now() / 1000) + expiresIn`).  `exchange`
abstracts `supabase.auth.setSession`, returning the signed-in user's
identity or `none` on failure; `now` is the unix time at which the
record is committed. -/
def processCallback (params : OAuthCallbackParams)
    (exchange : String → String → Option UserIdentity) (now : Int) :
    Except AuthError StoredAuth :=
  if truthy params.error then
    .error (.oauthProviderError (jsOr params.error_description (params.error.getD "")))
  else
    let accessToken := params.access_token
    let refreshToken := params.refresh_token
    let expiresIn := parseIntJS (jsOr params.expires_in "3600")
    if !truthy accessToken || !truthy refreshToken then
      .error .missingTokens
    else
      match exchange (accessToken.getD "") (refreshToken.getD "") with
      | none => .error .sessionExchangeFailed
      | some user =>
          .ok { accessToken := accessToken.getD ""
                refreshToken := refreshToken.getD ""
                expiresAt := addJS (some now) expiresIn
                user := { email := jsOr user.email "", id := user.id } }

/-- `authenticate()` from `auth.ts`.  `oauthUrl` is the URL returned
by `signInWithOAuth` (falsy/absent means the provider returned no
URL); `events` drives the callback listener; the browser launch is
caught and cannot affect the outcome, so it does not appear.  The
outer `Option` is `none` when the listener never settles (the await
never returns). -/
def authenticate (oauthUrl : Option String) (events : List ListenerEvent)
    (exchange : String → String → Option UserIdentity) (now : Int) :
    Option (Except AuthError StoredAuth) :=
  if !truthy oauthUrl then some (.error .authUrlMissing)
  else
    match runListener events with
    | none => none
    | some .timedOut => some (.error .callbackTimeout)
    | some (.resolved params) => some (processCallback params exchange now)

/-- The Session persisted by a run of `authenticate` (`saveAuth` is
called exactly once, on the fully successful path, with the record
that `authenticate` built). -/
def persistedAuth (oauthUrl : Option String) (events : List ListenerEvent)
    (exchange : String → String → Option UserIdentity) (now : Int) :
    Option StoredAuth :=
  match authenticate oauthUrl events exchange now with
  | some (.ok a) => some a
  | _ => none

/-! ## Substring containment (JavaScript `String.includes`) -/

/-- Whether `pat` is an initial segment of `l`. -/
def startsWithSeq : List Char → List Char → Bool
  | [], _ => true
  | _ :: _, [] => false
  | p :: ps, h :: hs => p = h && startsWithSeq ps hs

/-- Whether `pat` occurs contiguously inside `hay`. -/
def occursB (pat : List Char) : List Char → Bool
  | [] => pat.isEmpty
  | h :: hs => startsWithSeq pat (h :: hs) || occursB pat hs

/-- JavaScript `hay.includes(pat)`. -/
def strIncludesB (hay pat : String) : Bool :=
  occursB pat.data hay.data

/-! ## Response classification (`src/lib/api.ts`: `makeRequest`) -/

/-- The error cases of `makeRequest`: an `ApiError` (message, status
code, optional raw body), the network-failure rewrite (the spec's
`ConnectionFailed`, carrying the backend URL), or a token-access
failure from `getAccessToken` propagating unchanged. -/
inductive ApiFailure where
  | apiError (message : String) (statusCode : Nat) (responseBody : Option String)
  | connectionFailed (backendUrl : String)
  | tokenError (e : TokenError)
deriving DecidableEq, Repr

/-- A successful `makeRequest` result: the parsed JSON body, or the
raw text body (JSON parsing itself is outside this layer's logic, so
the parsed value is represented by the body it was parsed from). -/
inductive ApiResult where
  | json (body : String)
  | text (body : String)
deriving DecidableEq, Repr

/-- The resource-kind resolution of the 404 branch of `makeRequest`
(api.ts lines 66–84): an ordered substring match on the endpoint. -/
def resourceNameFor (endpoint : String) : String :=
  if strIncludesB endpoint "/projects/" then "Project"
  else if strIncludesB endpoint "/outline/" then "Outline"
  else if strIncludesB endpoint "/section/" then "Section"
  else "Resource"

/-- The message of the 404 `ApiError`: the resolved resource kind,
then the raw body if non-empty, else a fixed fallback sentence. -/
def notFoundMessage (endpoint text : String) : String :=
  resourceNameFor endpoint ++ " not found. " ++
    (if text = "" then "The requested resource does not exist." else text)

/-- The message of the generic HTTP-error branch.  `parseDetail`
abstracts `JSON.parse` plus field lookup: `none` means the body did
not parse as JSON, `some none` means it parsed but had neither a
`detail` nor a `message` field, `some (some d)` is the field found. -/
def httpErrorMessage (status : Nat) (text : String)
    (parseDetail : String → Option (Option String)) : String :=
  let base := "API request failed with status " ++ toString status
  match parseDetail text with
  | some (some d) => base ++ ": " ++ d
  | some none => base
  | none => if text = "" then base else base ++ ": " ++ text

/-- `response.ok` of the Fetch API: status in 200–299. -/
def responseOk (status : Nat) : Bool :=
  200 ≤ status && status ≤ 299

/-- Whether the `content-type` header (absent ⇒ `null`) contains
`application/json` (`contentType?.includes('application/json')`). -/
def contentTypeIsJson : Option String → Bool
  | none => false
  | some ct => strIncludesB ct "application/json"

/-- The response-classification chain of `makeRequest` (api.ts lines
57–114): 401, then 404 with resource-kind resolution, then any other
non-ok status, then JSON or text success. -/
def classifyResponse (endpoint : String) (status : Nat) (body : String)
    (contentType : Option String)
    (parseDetail : String → Option (Option String)) :
    Except ApiFailure ApiResult :=
  if status = 401 then
    .error (.apiError
      "Your session has expired. Please re-authenticate using the authenticate tool."
      401 none)
  else if status = 404 then
    .error (.apiError (notFoundMessage endpoint body) 404 (some body))
  else if !responseOk status then
    .error (.apiError (httpErrorMessage status body parseDetail) status (some body))
  else if contentTypeIsJson contentType then
    .ok (.json body)
  else
    .ok (.text body)

/-- Header-list lookup with JavaScript object-literal semantics: a
later binding of the same key shadows an earlier one. -/
def lookupLast : List (String × String) → String → Option String
  | [], _ => none
  | (k, v) :: rest, key =>
      match lookupLast rest key with
      | some v' => some v'
      | none => if k = key then some v else none

/-- The header object of the outbound `fetch` call (api.ts lines
50–54): `{ Authorization: Bearer <token>, ...options.headers }` — the
caller-supplied headers are spread after the Authorization entry. -/
def requestHeaders (token : String) (optHeaders : List (String × String)) :
    List (String × String) :=
  ("Authorization", "Bearer " ++ token) :: optHeaders

/-- The outbound request `makeRequest` issues. -/
structure OutboundRequest where
  url : String
  headers : List (String × String)
deriving DecidableEq, Repr

/-- Construction of the outbound request (api.ts lines 43–55). -/
def buildOutboundRequest (backendUrl endpoint token : String)
    (optHeaders : List (String × String)) : OutboundRequest :=
  { url := backendUrl ++ endpoint
    headers := requestHeaders token optHeaders }

/-- What `fetch` produced: an HTTP response, or the transport-level
`TypeError` mentioning `fetch` that the source rewrites to the
connection-failure message. -/
inductive TransportOutcome where
  | response (status : Nat) (body : String) (contentType : Option String)
  | fetchFailure
deriving DecidableEq, Repr

/-- `makeRequest` from `api.ts`: obtain the token via
`getAccessToken` (failures propagate unchanged), issue the request
built by `buildOutboundRequest` through `send`, and classify the
outcome. -/
def makeRequest (auth : Option StoredAuth) (now : Int)
    (backendUrl endpoint : String) (optHeaders : List (String × String))
    (send : OutboundRequest → TransportOutcome)
    (parseDetail : String → Option (Option String)) :
    Except ApiFailure ApiResult :=
  match getAccessToken auth now with
  | .error e => .error (.tokenError e)
  | .ok token =>
      match send (buildOutboundRequest backendUrl endpoint token optHeaders) with
      | .fetchFailure => .error (.connectionFailed backendUrl)
      | .response status body contentType =>
          classifyResponse endpoint status body contentType parseDetail

/-! ## Endpoint construction (`src/lib/api.ts`: `listProjects`,
`regenerateOutline`)

`listProjects` builds its query string with `URLSearchParams`
(application/x-www-form-urlencoded serialisation) and
`regenerateOutline` embeds the project name with
`encodeURIComponent`; both encoders are modelled character by
character over the standard escaping rules. -/

/-- The sixteen upper-case hexadecimal digit characters. -/
def hexDigitChars : List Char :=
  ['0', '1', '2', '3', '4', '5', '6', '7', '8', '9', 'A', 'B', 'C', 'D', 'E', 'F']

/-- Hexadecimal digit character for a value below 16. -/
def hexDigit (n : Nat) : Char :=
  hexDigitChars.getD n 'F'

/-- UTF-8 bytes of a character, from its code point. -/
def utf8Bytes (c : Char) : List Nat :=
  let n := c.toNat
  if n < 0x80 then [n]
  else if n < 0x800 then [0xC0 + n / 64, 0x80 + n % 64]
  else if n < 0x10000 then
    [0xE0 + n / 4096, 0x80 + (n / 64) % 64, 0x80 + n % 64]
  else
    [0xF0 + n / 262144, 0x80 + (n / 4096) % 64, 0x80 + (n / 64) % 64, 0x80 + n % 64]

/-- Percent-escape of a byte list: `%XX` per byte. -/
def percentBytes : List Nat → List Char
  | [] => []
  | b :: rest => '%' :: hexDigit (b / 16) :: hexDigit (b % 16) :: percentBytes rest

/-- Characters `URLSearchParams` serialises unescaped
(`application/x-www-form-urlencoded`: alphanumerics and `*-._`). -/
def formUnreserved (c : Char) : Bool :=
  c.isAlpha || c.isDigit || c = '*' || c = '-' || c = '.' || c = '_'

/-- One character of `URLSearchParams.toString()` output: space
becomes `+`, unreserved characters pass through, the rest are
percent-escaped per UTF-8 byte. -/
def formEncodeChar (c : Char) : List Char :=
  if c = ' ' then ['+']
  else if formUnreserved c then [c]
  else percentBytes (utf8Bytes c)

/-- `URLSearchParams` value serialisation over a character list. -/
def formUrlEncodeList : List Char → List Char
  | [] => []
  | c :: rest => formEncodeChar c ++ formUrlEncodeList rest

/-- `URLSearchParams` value serialisation of a string. -/
def formUrlEncode (s : String) : String :=
  String.mk (formUrlEncodeList s.data)

/-- Characters `encodeURIComponent` leaves unescaped: alphanumerics
and `-_.!~*'()` (the apostrophe appears as code point 39). -/
def uriUnreserved (c : Char) : Bool :=
  c.isAlpha || c.isDigit || c = '-' || c = '_' || c = '.' || c = '!' ||
    c = '~' || c = '*' || c = '(' || c = ')' || c.toNat = 39

/-- One character of `encodeURIComponent` output. -/
def uriEncodeChar (c : Char) : List Char :=
  if uriUnreserved c then [c] else percentBytes (utf8Bytes c)

/-- `encodeURIComponent` over a character list. -/
def uriEncodeList : List Char → List Char
  | [] => []
  | c :: rest => uriEncodeChar c ++ uriEncodeList rest

/-- JavaScript `encodeURIComponent`. -/
def encodeURIComponent (s : String) : String :=
  String.mk (uriEncodeList s.data)

/-- The endpoint built by `listProjects(status?)` (api.ts lines
357–367): the `status` parameter is appended only when truthy, and the
`?` only when the query string is non-empty. -/
def listProjectsEndpoint (status : Option String) : String :=
  let queryString :=
    if truthy status then "status=" ++ formUrlEncode (status.getD "") else ""
  if queryString = "" then "/projects" else "/projects?" ++ queryString

/-- The endpoint built by `regenerateOutline(projectName, ...)`
(api.ts line 281). -/
def regenerateOutlineEndpoint (projectName : String) : String :=
  "/api/v2/projects/" ++ encodeURIComponent projectName ++ "/outline/regenerate"

/-! ## Claim-support definitions -/

/-- The spec's Session invariant, as a predicate on a stored record
and the unix time at which it was created: `expiresAt` is a number
strictly greater than the creation time. -/
def expiresAfter (s : StoredAuth) (createdAt : Int) : Bool :=
  match s.expiresAt with
  | some t => decide (createdAt < t)
  | none => false

/-- Whether a run of `authenticate` failed with `OAuthProviderError`. -/
def isOAuthProviderFailure : Option (Except AuthError StoredAuth) → Bool
  | some (.error (.oauthProviderError _)) => true
  | _ => false

/-- A callback query whose `error` parameter is present but empty
(the parse of `?error=`), with no tokens. -/
def emptyErrorParams : OAuthCallbackParams :=
  { access_token := none, refresh_token := none, expires_in := none,
    token_type := none, error := some "", error_description := none }

/-- A callback query delivering tokens with `expires_in=0`. -/
def zeroExpiryParams : OAuthCallbackParams :=
  { access_token := some "a", refresh_token := some "b", expires_in := some "0",
    token_type := none, error := none, error_description := none }

/-- A callback query delivering `access_token=a&refresh_token=b&expires_in=10`. -/
def tenSecondParams : OAuthCallbackParams :=
  { access_token := some "a", refresh_token := some "b", expires_in := some "10",
    token_type := none, error := none, error_description := none }

/-- A session exchange that accepts any tokens and returns a fixed
identity. -/
def acceptingExchange : String → String → Option UserIdentity :=
  fun _ _ => some { email := some "user@example.com", id := "uid-1" }

/-- A probe environment where ports 54321 and 54322 are busy, 54323
binds, and every later port fails fatally. -/
def busyThenFreeProbe : Nat → BindOutcome :=
  fun p =>
    if p ≤ 54322 then .inUse
    else if p = 54323 then .ok p
    else .fatal "EACCES"

/-- A stored session expiring at unix time 2000. -/
def sampleSession : StoredAuth :=
  { accessToken := "tok-abc", refreshToken := "ref-xyz",
    expiresAt := some 2000, user := { email := "user@example.com", id := "uid-1" } }

/-! ## Helper lemmas -/

theorem startsWithSeq_iff (pat l : List Char) :
    startsWithSeq pat l = true ↔ ∃ t, pat ++ t = l := by
  induction pat generalizing l with
  | nil => simp [startsWithSeq]
  | cons p ps ih =>
      cases l with
      | nil => simp [startsWithSeq]
      | cons h hs =>
          simp only [startsWithSeq, Bool.and_eq_true, decide_eq_true_eq, ih,
            List.cons_append, List.cons.injEq]
          constructor
          · rintro ⟨rfl, t, rfl⟩
            exact ⟨t, rfl, rfl⟩
          · rintro ⟨t, rfl, rfl⟩
            exact ⟨rfl, t, rfl⟩

theorem occursB_iff (pat hay : List Char) :
    occursB pat hay = true ↔ ∃ s t, s ++ pat ++ t = hay := by
  induction hay with
  | nil =>
      simp only [occursB, List.isEmpty_iff]
      constructor
      · rintro rfl
        exact ⟨[], [], rfl⟩
      · rintro ⟨s, t, h⟩
        rcases List.append_eq_nil.mp h with ⟨h1, _⟩
        exact (List.append_eq_nil.mp h1).2
  | cons h hs ih =>
      simp only [occursB, Bool.or_eq_true, startsWithSeq_iff, ih]
      constructor
      · rintro (⟨t, ht⟩ | ⟨s, t, hst⟩)
        · exact ⟨[], t, by simpa using ht⟩
        · exact ⟨h :: s, t, by simp [hst]⟩
      · rintro ⟨s, t, hst⟩
        cases s with
        | nil => exact Or.inl ⟨t, by simpa using hst⟩
        | cons s₀ srest =>
            simp only [List.cons_append, List.cons.injEq] at hst
            exact Or.inr ⟨srest, t, hst.2⟩

/-- A pattern needing more copies of some character than the haystack
has cannot occur in it. -/
theorem occursB_eq_false_of_count (pat hay : List Char) (c : Char)
    (h : hay.count c < pat.count c) : occursB pat hay = false := by
  rw [Bool.eq_false_iff]
  intro hT
  obtain ⟨s, t, rfl⟩ := (occursB_iff pat _).mp hT
  simp only [List.count_append] at h
  omega

/-- `(s ++ t).data = s.data ++ t.data`. -/
theorem string_data_append (s t : String) : (s ++ t).data = s.data ++ t.data := by
  rcases s with ⟨s⟩
  rcases t with ⟨t⟩
  rfl

theorem hexDigit_mem (n : Nat) : hexDigit n ∈ hexDigitChars := by
  unfold hexDigit
  rcases Nat.lt_or_ge n 16 with h | h
  · interval_cases n <;> decide
  · rw [List.getD_eq_getElem?_getD, List.getElem?_eq_none (by simpa [hexDigitChars] using h)]
    decide

theorem hexDigit_ne_slash (n : Nat) : hexDigit n ≠ '/' := by
  have h := hexDigit_mem n
  intro he
  rw [he] at h
  revert h
  decide

theorem percentBytes_no_slash (bs : List Nat) : '/' ∉ percentBytes bs := by
  induction bs with
  | nil => simp [percentBytes]
  | cons b rest ih =>
      simp only [percentBytes, List.mem_cons]
      rintro (h | h | h | h)
      · exact absurd h (by decide)
      · exact hexDigit_ne_slash _ h.symm
      · exact hexDigit_ne_slash _ h.symm
      · exact ih h

theorem formEncodeChar_no_slash (c : Char) : '/' ∉ formEncodeChar c := by
  unfold formEncodeChar
  split
  · decide
  · split
    · next hsp hun =>
        simp only [List.mem_singleton]
        intro h
        rw [← h] at hun
        exact absurd hun (by decide)
    · exact percentBytes_no_slash _

theorem formUrlEncodeList_no_slash (l : List Char) : '/' ∉ formUrlEncodeList l := by
  induction l with
  | nil => simp [formUrlEncodeList]
  | cons c rest ih =>
      simp only [formUrlEncodeList, List.mem_append]
      rintro (h | h)
      · exact formEncodeChar_no_slash c h
      · exact ih h

/-- The listener's first settling event wins: with no `/callback`
request before the timer fires, the promise is rejected, whatever
arrives afterwards. -/
theorem runListener_no_callback (pre post : List ListenerEvent)
    (hpre : ∀ e ∈ pre, isCallbackRequest e = false) :
    runListener (pre ++ ListenerEvent.timeout :: post) = some .timedOut := by
  induction pre with
  | nil => simp [runListener]
  | cons e rest ih =>
      cases e with
      | timeout => simp [runListener]
      | request path params =>
          have hp := hpre _ (List.mem_cons_self _ _)
          simp only [isCallbackRequest, decide_eq_false_iff_not] at hp
          simp only [List.cons_append, runListener, if_neg hp]
          exact ih fun e he => hpre e (List.mem_cons_of_mem _ he)

/-- Skipping the busy range: when ports `P, …, P+N-1` are all busy,
the allocator's state after `N` probes is the call at `P+N` with `N`
fewer units of fuel. -/
theorem findAvailablePort_skip (probe : Nat → BindOutcome) :
    ∀ (N P fuel : Nat), (∀ i, i < N → probe (P + i) = .inUse) → N < fuel →
      findAvailablePort probe fuel P = findAvailablePort probe (fuel - N) (P + N) := by
  intro N
  induction N with
  | zero => intro P fuel _ _; simp
  | succ n ih =>
      intro P fuel hbusy hfuel
      obtain ⟨f, rfl⟩ : ∃ f, fuel = f + 1 := ⟨fuel - 1, by omega⟩
      have h0 : probe P = .inUse := by simpa using hbusy 0 (by omega)
      have hb1 : ∀ i, i < n → probe (P + 1 + i) = .inUse := by
        intro i hi
        have := hbusy (i + 1) (by omega)
        rwa [show P + (i + 1) = P + 1 + i by omega] at this
      calc findAvailablePort probe (f + 1) P
        _ = findAvailablePort probe f (P + 1) := by simp [findAvailablePort, h0]
        _ = findAvailablePort probe (f - n) (P + 1 + n) := ih (P + 1) f hb1 (by omega)
        _ = findAvailablePort probe (f + 1 - (n + 1)) (P + (n + 1)) := by
              congr 1 <;> omega

theorem statusQuery_ne_empty (x : String) : "status=" ++ x ≠ "" := by
  intro h
  have h2 := congrArg String.data h
  rw [string_data_append, show ("" : String).data = [] from rfl] at h2
  exact absurd (List.append_eq_nil.mp h2).1 (by decide)

/-- Extraction of the committed record's expiry from a successful run
of `authenticate` whose callback resolved with `params`. -/
theorem authenticate_ok_fields (oauthUrl : Option String)
    (events : List ListenerEvent)
    (exchange : String → String → Option UserIdentity) (now : Int)
    (params : OAuthCallbackParams) (a : StoredAuth)
    (hrun : runListener events = some (.resolved params))
    (hok : authenticate oauthUrl events exchange now = some (.ok a)) :
    a.expiresAt = addJS (some now) (parseIntJS (jsOr params.expires_in "3600")) := by
  by_cases hu : truthy oauthUrl
  · simp only [authenticate, hu, Bool.not_true, Bool.false_eq_true, if_false, hrun,
      Option.some.injEq] at hok
    unfold processCallback at hok
    split at hok
    · exact absurd hok (by simp)
    · dsimp only at hok
      split at hok
      · exact absurd hok (by simp)
      · split at hok
        · exact absurd hok (by simp)
        · rw [← Except.ok.inj hok]
  · simp [authenticate, hu] at hok

/-! ## Claims -/

/-- C1: `getAccessTokenOrFail()` fails with `NotAuthenticated` when no
Session exists, fails with `TokenExpired` when `now >= expiresAt`, and
otherwise returns exactly the stored access token string, unchanged. -/
theorem c1_getAccessToken (auth : Option StoredAuth) (a : StoredAuth) (now t : Int)
    (ha : auth = some a) (ht : a.expiresAt = some t) :
    getAccessToken none now = .error .notAuthenticated
    ∧ (t ≤ now → getAccessToken auth now = .error .tokenExpired)
    ∧ (now < t → getAccessToken auth now = .ok a.accessToken) := by
  subst ha
  refine ⟨rfl, ?_, ?_⟩
  · intro hle
    simp [getAccessToken, geJS, ht, hle]
  · intro hlt
    simp [getAccessToken, geJS, ht, show ¬(t ≤ now) by omega]

theorem c1_getAccessToken_witness :
    getAccessToken none 1000 = .error .notAuthenticated
    ∧ ((2000 : Int) ≤ 1000 → getAccessToken (some sampleSession) 1000 = .error .tokenExpired)
    ∧ ((1000 : Int) < 2000 →
        getAccessToken (some sampleSession) 1000 = .ok sampleSession.accessToken) :=
  c1_getAccessToken (some sampleSession) sampleSession 1000 2000 rfl rfl

/-- C2: if the bind probes on ports `P, …, P+N-1` each fail with a
port-in-use error and the probe on `P+N` succeeds, then
`PortAllocator.allocate(P)` returns `P+N`; any bind failure other than
port-in-use propagates as a fatal error. -/
theorem c2_findAvailablePort (probe : Nat → BindOutcome) (P N fuel : Nat) (e : String)
    (hbusy : ∀ i, i < N → probe (P + i) = .inUse) (hfuel : N < fuel) :
    (probe (P + N) = .ok (P + N) →
      findAvailablePort probe fuel P = some (.ok (P + N)))
    ∧ (probe (P + N) = .fatal e →
      findAvailablePort probe fuel P = some (.error e)) := by
  have hskip := findAvailablePort_skip probe N P fuel hbusy hfuel
  obtain ⟨f, hf⟩ : ∃ f, fuel - N = f + 1 := ⟨fuel - N - 1, by omega⟩
  rw [hskip, hf]
  constructor
  · intro hok
    simp [findAvailablePort, hok]
  · intro hfat
    simp [findAvailablePort, hfat]

theorem c2_findAvailablePort_witness :
    (busyThenFreeProbe (54321 + 2) = .ok (54321 + 2) →
      findAvailablePort busyThenFreeProbe 4 54321 = some (.ok (54321 + 2)))
    ∧ (busyThenFreeProbe (54321 + 2) = .fatal "EACCES" →
      findAvailablePort busyThenFreeProbe 4 54321 = some (.error "EACCES")) :=
  c2_findAvailablePort busyThenFreeProbe 54321 2 4 "EACCES" (by decide) (by omega)

/-- C6: `checkAuthStatus()` is a pure function of the Session and the
clock with `authenticated = (session present AND now < expiresAt)`;
a Session with `expiresAt <= now` gives `authenticated = false` and
`isExpired = true`, and a Session with `expiresAt > now` gives
`authenticated = true`. -/
theorem c6_checkAuth (auth : Option StoredAuth) (a : StoredAuth) (now t : Int)
    (ha : auth = some a) (ht : a.expiresAt = some t) :
    (checkAuth none now).authenticated = false
    ∧ (checkAuth none now).isExpired = true
    ∧ (checkAuth auth now).authenticated = decide (now < t)
    ∧ (t ≤ now →
        (checkAuth auth now).authenticated = false ∧ (checkAuth auth now).isExpired = true)
    ∧ (now < t → (checkAuth auth now).authenticated = true) := by
  subst ha
  refine ⟨rfl, rfl, ?_, ?_, ?_⟩
  · by_cases h : t ≤ now
    · simp [checkAuth, geJS, ht, h, show ¬(now < t) by omega]
    · simp [checkAuth, geJS, ht, h, show now < t by omega]
  · intro h
    constructor <;> simp [checkAuth, geJS, ht, h]
  · intro h
    simp [checkAuth, geJS, ht, show ¬(t ≤ now) by omega]

theorem c6_checkAuth_witness :
    (checkAuth none 1000).authenticated = false
    ∧ (checkAuth none 1000).isExpired = true
    ∧ (checkAuth (some sampleSession) 1000).authenticated = decide ((1000 : Int) < 2000)
    ∧ ((2000 : Int) ≤ 1000 →
        (checkAuth (some sampleSession) 1000).authenticated = false
        ∧ (checkAuth (some sampleSession) 1000).isExpired = true)
    ∧ ((1000 : Int) < 2000 → (checkAuth (some sampleSession) 1000).authenticated = true) :=
  c6_checkAuth (some sampleSession) sampleSession 1000 2000 rfl rfl

/-- C3 counterexample: a callback whose `error` field is set — to the
empty string, the parse of `?error=` — does not make the flow fail
with `OAuthProviderError`: the truthiness test `if (callbackParams.error)`
skips it and the flow falls through to the token-presence check,
failing with `MissingTokensInCallback`. -/
theorem c3_counterexample :
    emptyErrorParams.error = some ""
    ∧ authenticate (some "https://idp.example") [.request "/callback" emptyErrorParams]
        (fun _ _ => none) 0 = some (.error .missingTokens)
    ∧ isOAuthProviderFailure (authenticate (some "https://idp.example")
        [.request "/callback" emptyErrorParams] (fun _ _ => none) 0) = false :=
  ⟨rfl, rfl, rfl⟩

/-- C3 (amended): if the callback's `error` field is set to a
non-empty string, the flow fails with `OAuthProviderError` carrying
the description (`error_description` when truthy, else the error
string itself), and this check happens before the token-presence
check; only when `error` is absent or empty and `accessToken` or
`refreshToken` is absent or empty does the flow fail with
`MissingTokensInCallback`. -/
theorem c3_amended (oauthUrl : Option String) (events : List ListenerEvent)
    (exchange : String → String → Option UserIdentity) (now : Int)
    (params : OAuthCallbackParams)
    (hu : truthy oauthUrl = true)
    (hrun : runListener events = some (.resolved params)) :
    (truthy params.error = true →
      authenticate oauthUrl events exchange now
        = some (.error (.oauthProviderError
            (jsOr params.error_description (params.error.getD "")))))
    ∧ (truthy params.error = false →
       (truthy params.access_token = false ∨ truthy params.refresh_token = false) →
       authenticate oauthUrl events exchange now = some (.error .missingTokens)) := by
  constructor
  · intro herr
    simp [authenticate, hu, hrun, processCallback, herr]
  · intro herr htok
    have hcond : (!truthy params.access_token || !truthy params.refresh_token) = true := by
      rcases htok with h | h <;> simp [h]
    simp [authenticate, hu, hrun, processCallback, herr, hcond]

theorem c3_amended_witness :
    (truthy (OAuthCallbackParams.error
        ⟨none, none, none, none, some "access_denied", some "user cancelled"⟩) = true →
      authenticate (some "https://idp.example")
        [.request "/callback" ⟨none, none, none, none, some "access_denied", some "user cancelled"⟩]
        (fun _ _ => none) 0
        = some (.error (.oauthProviderError
            (jsOr (some "user cancelled") ((some "access_denied").getD "")))))
    ∧ (truthy (OAuthCallbackParams.error
        ⟨none, none, none, none, some "access_denied", some "user cancelled"⟩) = false →
       (truthy (OAuthCallbackParams.access_token
          ⟨none, none, none, none, some "access_denied", some "user cancelled"⟩) = false
        ∨ truthy (OAuthCallbackParams.refresh_token
          ⟨none, none, none, none, some "access_denied", some "user cancelled"⟩) = false) →
       authenticate (some "https://idp.example")
        [.request "/callback" ⟨none, none, none, none, some "access_denied", some "user cancelled"⟩]
        (fun _ _ => none) 0 = some (.error .missingTokens)) :=
  c3_amended (some "https://idp.example")
    [.request "/callback" ⟨none, none, none, none, some "access_denied", some "user cancelled"⟩]
    (fun _ _ => none) 0
    ⟨none, none, none, none, some "access_denied", some "user cancelled"⟩ rfl rfl

/-- C4: the persisted Session has
`expiresAt = (unix time at commit) + expiresIn`, with
`expiresIn = parseInt(expires_in || '3600', 10)`, defaulting to 3600
when the callback omitted `expires_in`; a callback delivering
`expires_in=10` yields `expiresAt = start + 10` and an immediate
`checkAuthStatus()` returns `authenticated = true`. -/
theorem c4_expiresAt (oauthUrl : Option String) (events : List ListenerEvent)
    (exchange : String → String → Option UserIdentity) (now : Int)
    (params : OAuthCallbackParams) (a : StoredAuth)
    (hrun : runListener events = some (.resolved params))
    (hok : authenticate oauthUrl events exchange now = some (.ok a)) :
    a.expiresAt = addJS (some now) (parseIntJS (jsOr params.expires_in "3600"))
    ∧ (params.expires_in = none → a.expiresAt = some (now + 3600))
    ∧ (params.expires_in = some "10" →
        a.expiresAt = some (now + 10) ∧ (checkAuth (some a) now).authenticated = true) := by
  have hexp := authenticate_ok_fields oauthUrl events exchange now params a hrun hok
  refine ⟨hexp, ?_, ?_⟩
  · intro hnone
    rw [hexp, hnone]
    rw [show jsOr none "3600" = "3600" from rfl,
      show parseIntJS "3600" = some 3600 by decide]
    rfl
  · intro hten
    have h10 : a.expiresAt = some (now + 10) := by
      rw [hexp, hten]
      rw [show jsOr (some "10") "3600" = "10" from rfl,
        show parseIntJS "10" = some 10 by decide]
      rfl
    refine ⟨h10, ?_⟩
    simp only [checkAuth, geJS, h10]
    simp [show ¬(now + 10 ≤ now) by omega]

theorem c4_expiresAt_witness :
    (tenSecondParams.expires_in = none →
      StoredAuth.expiresAt ⟨"a", "b", some 110, ⟨"user@example.com", "uid-1"⟩⟩ = some (100 + 3600))
    ∧ (tenSecondParams.expires_in = some "10" →
        StoredAuth.expiresAt ⟨"a", "b", some 110, ⟨"user@example.com", "uid-1"⟩⟩ = some (100 + 10)
        ∧ (checkAuth (some ⟨"a", "b", some 110, ⟨"user@example.com", "uid-1"⟩⟩) 100).authenticated
            = true) :=
  (c4_expiresAt (some "https://idp.example") [.request "/callback" tenSecondParams]
    acceptingExchange 100 tenSecondParams ⟨"a", "b", some 110, ⟨"user@example.com", "uid-1"⟩⟩
    rfl rfl).2

/-- C5 counterexample: a successful login whose callback delivered
`expires_in=0` persists, at unix time 100, a Session with
`expiresAt = 100` — not strictly greater than the moment of
creation. -/
theorem c5_counterexample :
    persistedAuth (some "https://idp.example") [.request "/callback" zeroExpiryParams]
        acceptingExchange 100
      = some ⟨"a", "b", some 100, ⟨"user@example.com", "uid-1"⟩⟩
    ∧ expiresAfter ⟨"a", "b", some 100, ⟨"user@example.com", "uid-1"⟩⟩ 100 = false :=
  ⟨rfl, rfl⟩

/-- C5 (amended): a Session created by a successful login has
`expiresAt` strictly greater than its creation time whenever the
callback's `expires_in` parses to a positive integer — in particular
always when `expires_in` is omitted, since the default is 3600; a
callback supplying `expires_in=0` (or a negative or non-numeric
value) escapes the invariant. -/
theorem c5_amended (oauthUrl : Option String) (events : List ListenerEvent)
    (exchange : String → String → Option UserIdentity) (now : Int)
    (params : OAuthCallbackParams) (a : StoredAuth) (k : Int)
    (hrun : runListener events = some (.resolved params))
    (ha : persistedAuth oauthUrl events exchange now = some a)
    (hk : parseIntJS (jsOr params.expires_in "3600") = some k)
    (hpos : 0 < k) :
    expiresAfter a now = true := by
  have hok : authenticate oauthUrl events exchange now = some (.ok a) := by
    unfold persistedAuth at ha
    split at ha
    · next h => rw [h, Option.some.inj ha]
    · exact absurd ha (by simp)
  have hexp := authenticate_ok_fields oauthUrl events exchange now params a hrun hok
  rw [hk] at hexp
  unfold expiresAfter
  rw [hexp]
  simpa [addJS] using by omega

theorem c5_amended_witness :
    expiresAfter ⟨"a", "b", some 110, ⟨"user@example.com", "uid-1"⟩⟩ 100 = true :=
  c5_amended (some "https://idp.example") [.request "/callback" tenSecondParams]
    acceptingExchange 100 tenSecondParams ⟨"a", "b", some 110, ⟨"user@example.com", "uid-1"⟩⟩
    10 rfl rfl (by decide) (by omega)

/-- C8: when no request to the callback path arrives before the
timeout fires, the listener's future is rejected with
`CallbackTimeout`, no result is delivered after that point even if a
late request arrives (the late events are arbitrary), and no Session
is persisted by the failed attempt. -/
theorem c8_timeout (oauthUrl : Option String)
    (exchange : String → String → Option UserIdentity) (now : Int)
    (pre post : List ListenerEvent)
    (hu : truthy oauthUrl = true)
    (hpre : ∀ e ∈ pre, isCallbackRequest e = false) :
    runListener (pre ++ ListenerEvent.timeout :: post) = some .timedOut
    ∧ authenticate oauthUrl (pre ++ ListenerEvent.timeout :: post) exchange now
        = some (.error .callbackTimeout)
    ∧ persistedAuth oauthUrl (pre ++ ListenerEvent.timeout :: post) exchange now = none := by
  have h := runListener_no_callback pre post hpre
  refine ⟨h, ?_, ?_⟩
  · simp [authenticate, hu, h]
  · simp [persistedAuth, authenticate, hu, h]

theorem c8_timeout_witness :
    runListener ([.request "/favicon.ico" emptyErrorParams]
        ++ ListenerEvent.timeout :: [.request "/callback" tenSecondParams]) = some .timedOut
    ∧ authenticate (some "https://idp.example")
        ([.request "/favicon.ico" emptyErrorParams]
          ++ ListenerEvent.timeout :: [.request "/callback" tenSecondParams])
        acceptingExchange 100
        = some (.error .callbackTimeout)
    ∧ persistedAuth (some "https://idp.example")
        ([.request "/favicon.ico" emptyErrorParams]
          ++ ListenerEvent.timeout :: [.request "/callback" tenSecondParams])
        acceptingExchange 100 = none :=
  c8_timeout (some "https://idp.example") acceptingExchange 100
    [.request "/favicon.ico" emptyErrorParams] [.request "/callback" tenSecondParams]
    rfl (by decide)

/-- C7: an HTTP 404 response from `ApiClient.request` is classified as
a not-found `ApiError` whose resource kind is resolved by the ordered
rule list — `/projects/` then `/outline/` then `/section/`, else the
generic `Resource` — and whose message includes the raw response body
when that body is non-empty. -/
theorem c7_notFound (auth : Option StoredAuth) (now : Int)
    (backendUrl endpoint body : String) (contentType : Option String)
    (optHeaders : List (String × String))
    (send : OutboundRequest → TransportOutcome)
    (parseDetail : String → Option (Option String)) (tok : String)
    (htok : getAccessToken auth now = .ok tok)
    (hsend : send (buildOutboundRequest backendUrl endpoint tok optHeaders)
      = .response 404 body contentType) :
    makeRequest auth now backendUrl endpoint optHeaders send parseDetail
      = .error (.apiError (notFoundMessage endpoint body) 404 (some body))
    ∧ (strIncludesB endpoint "/projects/" = true → resourceNameFor endpoint = "Project")
    ∧ (strIncludesB endpoint "/projects/" = false →
        strIncludesB endpoint "/outline/" = true → resourceNameFor endpoint = "Outline")
    ∧ (strIncludesB endpoint "/projects/" = false →
        strIncludesB endpoint "/outline/" = false →
        strIncludesB endpoint "/section/" = true → resourceNameFor endpoint = "Section")
    ∧ (strIncludesB endpoint "/projects/" = false →
        strIncludesB endpoint "/outline/" = false →
        strIncludesB endpoint "/section/" = false → resourceNameFor endpoint = "Resource")
    ∧ (body ≠ "" → strIncludesB (notFoundMessage endpoint body) body = true) := by
  refine ⟨?_, ?_, ?_, ?_, ?_, ?_⟩
  · unfold makeRequest
    rw [htok]
    dsimp only
    rw [hsend]
    unfold classifyResponse
    dsimp only
    rw [if_neg (by decide), if_pos rfl]
  · intro h1
    simp [resourceNameFor, h1]
  · intro h1 h2
    simp [resourceNameFor, h1, h2]
  · intro h1 h2 h3
    simp [resourceNameFor, h1, h2, h3]
  · intro h1 h2 h3
    simp [resourceNameFor, h1, h2, h3]
  · intro hb
    have hmsg : notFoundMessage endpoint body
        = (resourceNameFor endpoint ++ " not found. ") ++ body := by
      unfold notFoundMessage
      rw [if_neg hb]
    unfold strIncludesB
    rw [hmsg, string_data_append, occursB_iff]
    exact ⟨(resourceNameFor endpoint ++ " not found. ").data, [], by simp⟩

theorem c7_notFound_witness :
    makeRequest (some sampleSession) 1000 "https://backend.example" "/projects/p1" []
        (fun _ => .response 404 "missing" (some "text/plain")) (fun _ => none)
      = .error (.apiError (notFoundMessage "/projects/p1" "missing") 404 (some "missing"))
    ∧ (strIncludesB "/projects/p1" "/projects/" = true →
        resourceNameFor "/projects/p1" = "Project")
    ∧ (strIncludesB "/projects/p1" "/projects/" = false →
        strIncludesB "/projects/p1" "/outline/" = true →
        resourceNameFor "/projects/p1" = "Outline")
    ∧ (strIncludesB "/projects/p1" "/projects/" = false →
        strIncludesB "/projects/p1" "/outline/" = false →
        strIncludesB "/projects/p1" "/section/" = true →
        resourceNameFor "/projects/p1" = "Section")
    ∧ (strIncludesB "/projects/p1" "/projects/" = false →
        strIncludesB "/projects/p1" "/outline/" = false →
        strIncludesB "/projects/p1" "/section/" = false →
        resourceNameFor "/projects/p1" = "Resource")
    ∧ ("missing" ≠ "" →
        strIncludesB (notFoundMessage "/projects/p1" "missing") "missing" = true) :=
  c7_notFound (some sampleSession) 1000 "https://backend.example" "/projects/p1" "missing"
    (some "text/plain") [] (fun _ => .response 404 "missing" (some "text/plain"))
    (fun _ => none) "tok-abc" rfl rfl

/-- C9 (implicit): in the outbound request construction, the
caller-supplied headers are spread after the `Authorization` entry, so
a caller-supplied `Authorization` header replaces the Bearer token
from the token store; for every other call the `Bearer` token obtained
from `getAccessToken()` is sent. -/
theorem c9_header_merge (auth : Option StoredAuth) (now : Int) (tok : String)
    (backendUrl endpoint v : String) (optHeaders : List (String × String))
    (_htok : getAccessToken auth now = .ok tok) :
    (lookupLast optHeaders "Authorization" = some v →
      lookupLast (buildOutboundRequest backendUrl endpoint tok optHeaders).headers
        "Authorization" = some v)
    ∧ (lookupLast optHeaders "Authorization" = none →
      lookupLast (buildOutboundRequest backendUrl endpoint tok optHeaders).headers
        "Authorization" = some ("Bearer " ++ tok)) := by
  constructor <;> intro h <;>
    simp [buildOutboundRequest, requestHeaders, lookupLast, h]

theorem c9_header_merge_witness :
    (lookupLast [("Authorization", "custom-token")] "Authorization" = some "custom-token" →
      lookupLast (buildOutboundRequest "https://backend.example" "/projects" "tok-abc"
          [("Authorization", "custom-token")]).headers "Authorization" = some "custom-token")
    ∧ (lookupLast [("Authorization", "custom-token")] "Authorization" = none →
      lookupLast (buildOutboundRequest "https://backend.example" "/projects" "tok-abc"
          [("Authorization", "custom-token")]).headers "Authorization"
        = some ("Bearer " ++ "tok-abc")) :=
  c9_header_merge (some sampleSession) 1000 "tok-abc" "https://backend.example" "/projects"
    "custom-token" [("Authorization", "custom-token")] rfl

/-- C10 (implicit): because the 404 resource-kind rules match
slash-delimited substrings in priority order, a 404 from
`listProjects` (endpoint `/projects` or `/projects?status=...`)
resolves to the generic `Resource` kind rather than `Project`, and a
404 from `regenerateOutline`
(endpoint `/api/v2/projects/{name}/outline/regenerate`) resolves to
`Project` rather than `Outline`. -/
theorem c10_endpoint_kinds (status : Option String) (projectName : String) :
    resourceNameFor (listProjectsEndpoint status) = "Resource"
    ∧ resourceNameFor (regenerateOutlineEndpoint projectName) = "Project" := by
  constructor
  · cases hs : truthy status with
    | false =>
        have he : listProjectsEndpoint status = "/projects" := by
          simp [listProjectsEndpoint, hs]
        rw [he]
        decide
    | true =>
        have he : listProjectsEndpoint status
            = "/projects?" ++ ("status=" ++ formUrlEncode (status.getD "")) := by
          unfold listProjectsEndpoint
          rw [if_pos hs, if_neg (statusQuery_ne_empty _)]
        have hcount : (listProjectsEndpoint status).data.count '/' = 1 := by
          rw [he, string_data_append, string_data_append,
            List.count_append, List.count_append,
            show (formUrlEncode (status.getD "")).data
              = formUrlEncodeList (status.getD "").data from rfl,
            List.count_eq_zero.mpr (formUrlEncodeList_no_slash _)]
          decide
        have hfalse : ∀ pat : String, pat.data.count '/' = 2 →
            strIncludesB (listProjectsEndpoint status) pat = false := by
          intro pat hpat
          unfold strIncludesB
          exact occursB_eq_false_of_count _ _ '/' (by rw [hcount, hpat]; omega)
        simp [resourceNameFor, hfalse "/projects/" (by decide),
          hfalse "/outline/" (by decide), hfalse "/section/" (by decide)]
  · have hsplit : (regenerateOutlineEndpoint projectName).data
        = "/api/v2".data ++ ("/projects/".data ++
            ((encodeURIComponent projectName).data ++ "/outline/regenerate".data)) := by
      unfold regenerateOutlineEndpoint
      rw [string_data_append, string_data_append,
        show "/api/v2/projects/".data = "/api/v2".data ++ "/projects/".data by decide]
      simp [List.append_assoc]
    have hP : strIncludesB (regenerateOutlineEndpoint projectName) "/projects/" = true := by
      unfold strIncludesB
      rw [hsplit, occursB_iff]
      exact ⟨"/api/v2".data,
        (encodeURIComponent projectName).data ++ "/outline/regenerate".data,
        by simp [List.append_assoc]⟩
    simp [resourceNameFor, hP]

end Quibo
